import Mathlib

/-!
Shallow embedding of src/scripts/extrator_nf.py.

The program extracts fields from the text layer of invoice PDFs using ordered
regex fallback lists, normalizes monetary fields to numbers, and aggregates
records into a spreadsheet. External collaborators (pdfplumber text extraction,
the `re` regex engine, pandas/Excel serialization) are modelled as oracles or
as explicit outcome data; everything written in the repository itself is
translated directly.

Numbers: Python floats are modelled as exact rationals; every value reachable
in this program is parsed from a finite decimal literal, which we represent
exactly in ℚ. Non-finite parses (inf, nan) are outside the model and the
claims.
-/

/-- Outcome of one `re.search(padrao, texto, ...)` call in `extrair_info`:
the engine either finds a match (carrying `match.group(1)`), finds none,
or raises (malformed pattern or internal error), which the code catches. -/
inductive SearchOutcome where
  | found (grupo : String)
  | notFound
  | raised
deriving DecidableEq

/-- A value stored in a record `dados[campo]`: monetary fields are numbers,
the rest are strings (`processar_pdf`, lines 134-141). -/
inductive Valor where
  | num (q : ℚ)
  | str (s : String)
deriving DecidableEq

/-- A record produced by `processar_pdf`: a dict from field name to value,
modelled as an association list in insertion order. -/
abbrev Registro := List (String × Valor)

/-- One spreadsheet cell after `DataFrame` construction: either a value or
null/NaN (a column absent from the record dict). -/
inductive Cell where
  | val (v : Valor)
  | null
deriving DecidableEq

/-- Helper: list prefix test by decidable character equality. -/
def ehPrefixo : List Char → List Char → Bool
  | [], _ => true
  | _ :: _, [] => false
  | a :: as, b :: bs => a = b && ehPrefixo as bs

/-- Python substring membership `key in campo`, on character lists. -/
def temSub (chave : List Char) : List Char → Bool
  | [] => chave.isEmpty
  | s :: t => ehPrefixo chave (s :: t) || temSub chave t

/-- Python `s.replace(c, r)` for a single-character pattern `c`:
every occurrence of `c` is replaced by the character list `r`. -/
def substituirChar (c : Char) (r : List Char) (s : List Char) : List Char :=
  s.foldr (fun ch acc => (if ch = c then r else [ch]) ++ acc) []

/-- The cleaning step of `limpar_valor` (line 99):
`valor.replace(".", "").replace(",", ".")`. -/
def limpeza (v : String) : String :=
  String.mk (substituirChar ',' ['.'] (substituirChar '.' [] v.toList))

/-- Python `s.strip()`: drop whitespace from both ends. -/
def pyStrip (s : String) : String :=
  String.mk (((s.toList.dropWhile Char.isWhitespace).reverse.dropWhile
    Char.isWhitespace).reverse)

/-- Value of a digit string read in base 10. -/
def valorDigitos (ds : List Char) : ℕ :=
  ds.foldl (fun acc d => 10 * acc + (d.toNat - 48)) 0

/-- Exponent part of a Python float literal: optional sign then digits. The
decimal under construction is `num / 10 ^ den10`; a positive exponent scales
the numerator, a negative one grows the power of ten. -/
def analisarExpDec (num : ℤ) (den10 : ℕ) (cs : List Char) : Option (ℤ × ℕ) :=
  let par : Bool × List Char :=
    match cs with
    | '+' :: t => (false, t)
    | '-' :: t => (true, t)
    | t => (false, t)
  let ds := par.2.takeWhile Char.isDigit
  let resto := par.2.dropWhile Char.isDigit
  if ds = [] ∨ resto ≠ [] then none
  else if par.1 then some (num, den10 + valorDigitos ds)
  else some (num * 10 ^ valorDigitos ds, den10)

/-- Unsigned body of a Python float literal: digits, optional point with
fraction digits, optional exponent. The result pair `(n, k)` denotes the
exact decimal `n / 10 ^ k`. -/
def analisarCorpoDec (cs : List Char) : Option (ℤ × ℕ) :=
  let inteiros := cs.takeWhile Char.isDigit
  let resto := cs.dropWhile Char.isDigit
  match resto with
  | [] => if inteiros = [] then none else some ((valorDigitos inteiros : ℤ), 0)
  | '.' :: resto2 =>
    let frac := resto2.takeWhile Char.isDigit
    let resto3 := resto2.dropWhile Char.isDigit
    if inteiros = [] ∧ frac = [] then none
    else
      let num : ℤ :=
        (valorDigitos inteiros : ℤ) * 10 ^ frac.length + (valorDigitos frac : ℤ)
      match resto3 with
      | [] => some (num, frac.length)
      | c :: resto4 =>
        if c = 'e' ∨ c = 'E' then analisarExpDec num frac.length resto4 else none
  | c :: resto2 =>
    if (c = 'e' ∨ c = 'E') ∧ inteiros ≠ [] then
      analisarExpDec ((valorDigitos inteiros : ℤ)) 0 resto2
    else none

/-- Python `float(s)` on finite decimal literals, as an exact decimal pair:
optional surrounding whitespace, optional sign, then the numeric body.
Returns none exactly when Python raises ValueError (non-finite and
underscore forms excluded, which no input of this program produces). -/
def pyFloatDec (s : String) : Option (ℤ × ℕ) :=
  let cs := ((s.toList.dropWhile Char.isWhitespace).reverse.dropWhile
    Char.isWhitespace).reverse
  match cs with
  | '+' :: t => analisarCorpoDec t
  | '-' :: t => (analisarCorpoDec t).map (fun p => (-p.1, p.2))
  | t => analisarCorpoDec t

/-- The rational value of a parsed Python float literal. -/
def pyFloat (s : String) : Option ℚ :=
  (pyFloatDec s).map (fun p => (p.1 : ℚ) / (10 : ℚ) ^ p.2)

/-- ProcessadorPDF.limpar_valor (lines 94-102): converts a captured value to a
number; None, empty and the zero token map to 0.0, a parse failure is logged
and maps to 0.0. -/
def limpar_valor (valor : Option String) : ℚ :=
  match valor with
  | none => 0
  | some v =>
    if v = "" ∨ v = "0,00" then 0
    else
      match pyFloat (limpeza v) with
      | some q => q
      | none => 0

/-- ProcessadorPDF.extrair_info (lines 104-113): try each pattern in order
against the text; on the first match return the stripped first capture group;
a raised search is logged and falls through like a non-match; if nothing
matches return None. The regex engine is the oracle `busca`, taking the
pattern and the text. In the source a non-list argument is wrapped as a
singleton list first; every catalog entry is already a list. -/
def extrair_info (busca : String → String → SearchOutcome) (texto : String) :
    List String → Option String
  | [] => none
  | p :: ps =>
    match busca p texto with
    | SearchOutcome.found g => some (pyStrip g)
    | SearchOutcome.notFound => extrair_info busca texto ps
    | SearchOutcome.raised => extrair_info busca texto ps

/-- carregar_padroes (lines 46-85): the static pattern catalog, field name to
ordered regex fallback list, in source order. -/
def carregar_padroes : List (String × List String) :=
  [ ("numero_nota",
      ["NFS-e\\s*n°\\s*(\\d+\\.\\d+)",
       "Nota Fiscal Eletrônica\\s*N°\\s*(\\d+\\.\\d+)"]),
    ("data_emissao",
      ["Data e Hora de Emissão\\s*(\\d{2}/\\d{2}/\\d{4}\\s*\\d{2}:\\d{2}:\\d{2})",
       "emitida em\\s*(\\d{2}/\\d{2}/\\d{4})"]),
    ("cnpj_prestador",
      ["PRESTADOR DE SERVIÇOS.*?CPF/CNPJ\\s*([\\d./-]+)"]),
    ("nome_prestador",
      ["Nome/Razão Social:\\s*(.*?)\\s*Endereço"]),
    ("cnpj_tomador",
      ["TOMADOR DE SERVIÇOS.*?C\\.P\\.F\\./C\\.N\\.P\\.J\\.\\s*([\\d./-]+)"]),
    ("nome_tomador",
      ["TOMADOR DE SERVIÇOS.*?Nome/Razão Social:\\s*(.*?)\\s*C\\.P\\.F\\./C\\.N\\.P\\.J\\."]),
    ("valor_total",
      ["VALOR TOTAL DOS SERVIÇOS\\s*=\\s*R\\$\\s*([\\d.,]+)",
       "Valor Total da Nota\\s*R\\$\\s*([\\d.,]+)"]),
    ("base_calculo",
      ["Base de Calculo\\s*\\(R\\$\\)\\s*([\\d.,]+)"]),
    ("iss",
      ["Valor do ISS\\s*\\(R\\$\\)\\s*([\\d.,]+)"]),
    ("aliquota_iss",
      ["Alíquota\\s*\\(%\\)\\s*([\\d.,]+)"]),
    ("municipio_prestacao",
      ["Município da Prestação de Serviços\\s*(\\d+\\s*-\\s*[^/]+/[A-Z]{2})"]) ]

/-- The substring keys of the numeric-field test in processar_pdf (line 138). -/
def chaves_numericas : List String := ["valor", "iss", "base", "aliquota"]

/-- The numeric-field test of processar_pdf, line 138:
`any(key in campo for key in ["valor", "iss", "base", "aliquota"])`. -/
def campo_numerico (campo : String) : Bool :=
  chaves_numericas.any (fun k => temSub k.toList campo.toList)

/-- The per-field conversion of processar_pdf (lines 137-141): numeric fields
go through limpar_valor; other fields keep the extracted string, with None
(and the falsy empty string) stored as the empty string. -/
def normalizar_campo (campo : String) (valor : Option String) : Valor :=
  if campo_numerico campo then Valor.num (limpar_valor valor)
  else Valor.str (valor.getD "")

/-- The page-joining step of processar_pdf (lines 119-123): pages whose
extracted text is falsy are dropped, the rest joined with newlines. -/
def juntar_paginas (paginas : List String) : String :=
  String.intercalate "\n" (paginas.filter (fun p => p ≠ ""))

/-- ProcessadorPDF.processar_pdf (lines 115-147) after the external text
extraction: empty text is logged and yields None; otherwise a record is built
with the source filename under the key `arquivo` followed by every catalog
field, extracted then converted. Library failures raise and are caught,
also yielding None; that external path is outside this pure model. -/
def processar_pdf (busca : String → String → SearchOutcome)
    (nome texto : String) : Option Registro :=
  if texto = "" then none
  else
    some (("arquivo", Valor.str nome) ::
      carregar_padroes.map (fun par =>
        (par.1, normalizar_campo par.1 (extrair_info busca texto par.2))))

/-- The record-collection loop of main (lines 217-223): each document is
processed and only non-None results are appended. Documents are given as
(filename, concatenated text) pairs. -/
def coletar_registros (busca : String → String → SearchOutcome)
    (docs : List (String × String)) : List Registro :=
  docs.filterMap (fun d => processar_pdf busca d.1 d.2)

/-- The fixed column schema of gerar_excel (lines 167-173), in order. -/
def colunas : List String :=
  [ "arquivo", "numero_nota", "data_emissao",
    "cnpj_prestador", "nome_prestador",
    "cnpj_tomador", "nome_tomador",
    "valor_total", "base_calculo", "iss", "aliquota_iss",
    "municipio_prestacao" ]

/-- The columns filled by the fillna call (lines 182-184). -/
def colunas_fillna : List String :=
  ["valor_total", "base_calculo", "iss", "aliquota_iss"]

/-- DataFrame cell for record `r` and column `c`: the record value when the
key is present, null otherwise (missing columns are added as None, line 179). -/
def celula (r : Registro) (c : String) : Cell :=
  match List.lookup c r with
  | some v => Cell.val v
  | none => Cell.null

/-- The fillna step (lines 182-184): a null cell in one of the four numeric
columns becomes 0; every other cell is unchanged. -/
def preencher (c : String) (x : Cell) : Cell :=
  match x with
  | Cell.null =>
    if colunas_fillna.contains c then Cell.val (Valor.num 0) else Cell.null
  | Cell.val v => Cell.val v

/-- The table written by to_excel: one row per record, cells in schema
column order, after column completion and fillna. -/
def montar_tabela (registros : List Registro) : List (List Cell) :=
  registros.map (fun r => colunas.map (fun c => preencher c (celula r c)))

/-- GeradorRelatorio.gerar_excel (lines 160-192): empty input logs a warning
and returns False with no artifact; otherwise the table is built and written.
The external serialization is the oracle `escrita_ok`; when it raises, the
handler logs and returns False (lines 190-192) and no artifact is produced.
The boolean is the return value, the optional table the written artifact. -/
def gerar_excel (registros : List Registro) (escrita_ok : Bool) :
    Bool × Option (List (List Cell)) :=
  if registros.isEmpty then (false, none)
  else if escrita_ok then (true, some (montar_tabela registros))
  else (false, none)
-- ============ oracle definitions for concrete tests ============

/-- Search oracle where only the first data_emissao pattern matches,
returning a date-time capture. -/
def busca_c1 : String → String → SearchOutcome := fun p _ =>
  if p = "Data e Hora de Emissão\\s*(\\d{2}/\\d{2}/\\d{4}\\s*\\d{2}:\\d{2}:\\d{2})"
  then SearchOutcome.found "01/07/2024 10:30:00"
  else SearchOutcome.notFound

/-- Search oracle where two patterns both match with different groups. -/
def busca_c2 : String → String → SearchOutcome := fun p _ =>
  if p = "P1" then SearchOutcome.found " abc " else SearchOutcome.found "zzz"

/-- Search oracle that never matches. -/
def busca_c5 : String → String → SearchOutcome := fun _ _ =>
  SearchOutcome.notFound

/-- Search oracle that always raises. -/
def busca_c6 : String → String → SearchOutcome := fun _ _ =>
  SearchOutcome.raised

-- ============ helper lemmas ============

theorem substituirChar_cons (c : Char) (r : List Char) (a : Char)
    (t : List Char) :
    substituirChar c r (a :: t) = (if a = c then r else [a]) ++ substituirChar c r t := rfl

theorem ponto_nao_em_remocao (l : List Char) :
    '.' ∉ substituirChar '.' [] l := by
  induction l with
  | nil => simp [substituirChar]
  | cons a t ih =>
    rw [substituirChar_cons]
    by_cases hac : a = '.'
    · simpa [hac] using ih
    · simp [hac, List.mem_append]
      exact ⟨fun he => hac he.symm, ih⟩

theorem virgula_preservada (l : List Char) :
    ',' ∈ substituirChar '.' [] l ↔ ',' ∈ l := by
  induction l with
  | nil => simp [substituirChar]
  | cons a t ih =>
    rw [substituirChar_cons]
    by_cases hac : a = '.'
    · subst hac
      simp [ih]
    · simp [hac, List.mem_append, ih]

theorem ponto_apos_troca (l : List Char) (h : '.' ∉ l) :
    '.' ∈ substituirChar ',' ['.'] l ↔ ',' ∈ l := by
  induction l with
  | nil => simp [substituirChar]
  | cons a t ih =>
    rw [substituirChar_cons]
    have hna : '.' ≠ a := fun he => h (by rw [he]; exact List.mem_cons_self a t)
    have hnt : '.' ∉ t := fun he => h (List.mem_cons_of_mem a he)
    by_cases hac : a = ','
    · simp [hac]
    · have hca : (',' : Char) ≠ a := fun he => hac he.symm
      simp [hac, List.mem_append, ih hnt, List.mem_cons, hna, hca]

theorem zip_map_segundo {α β : Type} (f : α → β) (l : List α) :
    ∀ p ∈ l.zip (l.map f), p.2 = f p.1 := by
  induction l with
  | nil => intro p hp; simp at hp
  | cons a t ih =>
    intro p hp
    rw [List.map_cons, List.zip_cons_cons] at hp
    rcases List.mem_cons.mp hp with h | h
    · subst h; rfl
    · exact ih p h

-- ============ claim theorems ============

/-- Claim C2: extraction tries the patterns in order and returns the trimmed
first capture group of the first matching pattern, regardless of what the
later patterns would do. -/
theorem extrair_info_primeiro_padrao (busca : String → String → SearchOutcome)
    (texto p1 : String) (resto : List String) (g : String)
    (h : busca p1 texto = SearchOutcome.found g) :
    extrair_info busca texto (p1 :: resto) = some (pyStrip g) := by
  simp [extrair_info, h]

/-- Witness for C2: with both patterns matching, the first one wins and its
group comes back stripped. -/
theorem extrair_info_primeiro_padrao_teste :
    busca_c2 "P1" "t" = SearchOutcome.found " abc " ∧
    busca_c2 "P2" "t" = SearchOutcome.found "zzz" ∧
    extrair_info busca_c2 "t" ["P1", "P2"] = some "abc" := by
  refine ⟨rfl, rfl, ?_⟩
  rw [extrair_info_primeiro_padrao busca_c2 "t" "P1" ["P2"] " abc " rfl]
  decide

/-- Claim C3: limpar_valor is total and maps absence, the empty string, the
zero token, and every unparseable cleaned string to 0. -/
theorem limpar_valor_total (v : String) :
    limpar_valor none = 0 ∧ limpar_valor (some "") = 0 ∧
    limpar_valor (some "0,00") = 0 ∧
    (pyFloat (limpeza v) = none → limpar_valor (some v) = 0) := by
  refine ⟨rfl, by simp [limpar_valor], by simp [limpar_valor], ?_⟩
  intro h
  by_cases hv : v = "" ∨ v = "0,00"
  · simp [limpar_valor, hv]
  · simp [limpar_valor, hv, h]

/-- Witness for C3 at a non-numeric string. -/
theorem limpar_valor_total_teste :
    pyFloat (limpeza "abc") = none ∧ limpar_valor (some "abc") = 0 :=
  ⟨by decide, (limpar_valor_total "abc").2.2.2 (by decide)⟩

/-- Claim C4: a numeric field normalizes a Brazilian-locale amount by removing
periods and turning the comma into a point, so 1.234,56 becomes 1234.56. -/
theorem limpar_valor_brasileiro :
    campo_numerico "valor_total" = true ∧
    limpeza "1.234,56" = "1234.56" ∧
    normalizar_campo "valor_total" (some "1.234,56") = Valor.num (1234.56 : ℚ) := by
  have hc : campo_numerico "valor_total" = true := by decide
  have h : pyFloatDec (limpeza "1.234,56") = some (123456, 2) := by decide
  refine ⟨hc, by decide, ?_⟩
  simp [normalizar_campo, hc, limpar_valor, pyFloat, h]
  norm_num

/-- Claim C5: a document with empty concatenated text yields no record, and
the main loop therefore leaves it out of the collected records. -/
theorem processar_pdf_texto_vazio (busca : String → String → SearchOutcome)
    (nome texto : String) (docs1 docs2 : List (String × String))
    (h : texto = "") :
    processar_pdf busca nome texto = none ∧
    coletar_registros busca (docs1 ++ (nome, texto) :: docs2) =
      coletar_registros busca (docs1 ++ docs2) := by
  subst h
  constructor
  · simp [processar_pdf]
  · unfold coletar_registros
    rw [List.filterMap_append, List.filterMap_append,
      List.filterMap_cons_none]
    simp [processar_pdf]

/-- Witness for C5. -/
theorem processar_pdf_texto_vazio_teste :
    ("" : String) = "" ∧
    (processar_pdf busca_c5 "a.pdf" "" = none ∧
     coletar_registros busca_c5 ([("b.pdf", "x")] ++ ("a.pdf", "") :: []) =
       coletar_registros busca_c5 ([("b.pdf", "x")] ++ [])) :=
  ⟨rfl, processar_pdf_texto_vazio busca_c5 "a.pdf" "" [("b.pdf", "x")] [] rfl⟩

/-- Claim C6: when no pattern matches the extraction returns none, and a
raising pattern behaves exactly like a non-matching one, falling through to
the remaining patterns. -/
theorem extrair_info_sem_sucesso (busca : String → String → SearchOutcome)
    (texto p : String) (ps : List String) :
    ((∀ q ∈ ps, ∀ g, busca q texto ≠ SearchOutcome.found g) →
      extrair_info busca texto ps = none) ∧
    (busca p texto = SearchOutcome.raised →
      extrair_info busca texto (p :: ps) = extrair_info busca texto ps) := by
  constructor
  · induction ps with
    | nil => intro _; rfl
    | cons q qs ih =>
      intro h
      cases hb : busca q texto with
      | found g => exact absurd hb (h q (List.mem_cons_self q qs) g)
      | notFound =>
        rw [show extrair_info busca texto (q :: qs) = extrair_info busca texto qs
          from by simp [extrair_info, hb]]
        exact ih (fun r hr g => h r (List.mem_cons_of_mem q hr) g)
      | raised =>
        rw [show extrair_info busca texto (q :: qs) = extrair_info busca texto qs
          from by simp [extrair_info, hb]]
        exact ih (fun r hr g => h r (List.mem_cons_of_mem q hr) g)
  · intro h
    simp [extrair_info, h]

/-- Witness for C6 with an oracle that always raises. -/
theorem extrair_info_sem_sucesso_teste :
    extrair_info busca_c6 "t" ["a", "b"] = none ∧
    extrair_info busca_c6 "t" ("p" :: ["a", "b"]) =
      extrair_info busca_c6 "t" ["a", "b"] :=
  ⟨(extrair_info_sem_sucesso busca_c6 "t" "p" ["a", "b"]).1
      (fun _ _ _ h => SearchOutcome.noConfusion h),
   (extrair_info_sem_sucesso busca_c6 "t" "p" ["a", "b"]).2 rfl⟩

/-- Claim C7: with no records, gerar_excel returns False and writes nothing,
for any state of the external writer. -/
theorem gerar_excel_sem_registros (escrita_ok : Bool) :
    gerar_excel [] escrita_ok = (false, none) := rfl

/-- Claim C10: when the external write fails on a non-empty collection,
gerar_excel returns False and no artifact; the collection itself is an input
the function never modifies. -/
theorem gerar_excel_falha_escrita (registros : List Registro)
    (h : registros ≠ []) :
    gerar_excel registros false = (false, none) := by
  cases registros with
  | nil => exact absurd rfl h
  | cons r rs => rfl

/-- Witness for C10. -/
theorem gerar_excel_falha_escrita_teste :
    ([[("arquivo", Valor.str "b.pdf")]] : List Registro) ≠ [] ∧
    gerar_excel [[("arquivo", Valor.str "b.pdf")]] false = (false, none) :=
  ⟨List.cons_ne_nil _ _, gerar_excel_falha_escrita _ (List.cons_ne_nil _ _)⟩

/-- Claim C1 evaluation: the numeric-field test of processar_pdf holds for
the field data_emissao, because the key iss is a substring of emissao; an
extracted date-time string is therefore routed through limpar_valor and the
stored value is the number 0, not the trimmed date string. -/
theorem data_emissao_virou_numero :
    campo_numerico "data_emissao" = true ∧
    extrair_info busca_c1 "texto da nota"
      ["Data e Hora de Emissão\\s*(\\d{2}/\\d{2}/\\d{4}\\s*\\d{2}:\\d{2}:\\d{2})",
       "emitida em\\s*(\\d{2}/\\d{2}/\\d{4})"] = some "01/07/2024 10:30:00" ∧
    List.lookup "data_emissao"
      ((processar_pdf busca_c1 "nota.pdf" "texto da nota").getD [])
      = some (Valor.num 0) := by
  refine ⟨by decide, by decide, by decide⟩

/-- Claim C9: the cleaning step keeps a period only where the original value
had a comma, so a value like 12.34 with no comma loses its period and parses
as 1234. -/
theorem limpar_valor_remove_pontos (v : String) :
    ('.' ∈ (limpeza v).toList ↔ ',' ∈ v.toList) ∧
    limpar_valor (some "12.34") = (1234 : ℚ) := by
  constructor
  · show '.' ∈ substituirChar ',' ['.'] (substituirChar '.' [] v.toList) ↔ _
    rw [ponto_apos_troca _ (ponto_nao_em_remocao _), virgula_preservada]
  · have h : pyFloatDec (limpeza "12.34") = some (1234, 0) := by decide
    simp [limpar_valor, pyFloat, h]

/-- Counterexample to C8 as stated: on a record that lacks the text column
numero_nota, the built table carries a null cell there, not the empty
string. -/
theorem tabela_texto_ausente_nula :
    gerar_excel [[("arquivo", Valor.str "a.pdf")]] true
      = (true, some (montar_tabela [[("arquivo", Valor.str "a.pdf")]])) ∧
    List.getD ((montar_tabela [[("arquivo", Valor.str "a.pdf")]]).headD []) 1
      (Cell.val (Valor.str "?")) = Cell.null ∧
    Cell.null ≠ Cell.val (Valor.str "") := by
  refine ⟨rfl, by decide, by decide⟩

/-- Claim C8 amended: for a non-empty collection the artifact has one row per
record with exactly the schema columns in order; a missing cell in one of the
four fillna columns becomes the number 0, any other missing cell stays
null. -/
theorem gerar_excel_esquema (registros : List Registro) (h : registros ≠ []) :
    ∃ t, gerar_excel registros true = (true, some t) ∧
      t.length = registros.length ∧
      ∀ pr ∈ registros.zip t,
        pr.2.length = colunas.length ∧
        ∀ pc ∈ colunas.zip pr.2,
          pc.2 = match List.lookup pc.1 pr.1 with
            | some v => Cell.val v
            | none =>
              if colunas_fillna.contains pc.1 then Cell.val (Valor.num 0)
              else Cell.null := by
  refine ⟨montar_tabela registros, ?_, by simp [montar_tabela], ?_⟩
  · cases registros with
    | nil => exact absurd rfl h
    | cons r rs => rfl
  · intro pr hpr
    unfold montar_tabela at hpr
    have h2 : pr.2 = colunas.map (fun c => preencher c (celula pr.1 c)) :=
      zip_map_segundo _ registros pr hpr
    constructor
    · rw [h2]; simp
    · intro pc hpc
      rw [h2] at hpc
      have h3 : pc.2 = preencher pc.1 (celula pr.1 pc.1) :=
        zip_map_segundo _ colunas pc hpc
      rw [h3]
      cases hl : List.lookup pc.1 pr.1 with
      | some v => simp [celula, preencher, hl]
      | none => simp [celula, preencher, hl]

/-- Witness for the amended C8 on a one-record collection. -/
theorem gerar_excel_esquema_teste :
    ([[("arquivo", Valor.str "a.pdf")]] : List Registro) ≠ [] ∧
    (∃ t, gerar_excel [[("arquivo", Valor.str "a.pdf")]] true = (true, some t) ∧
      t.length = ([[("arquivo", Valor.str "a.pdf")]] : List Registro).length ∧
      ∀ pr ∈ ([[("arquivo", Valor.str "a.pdf")]] : List Registro).zip t,
        pr.2.length = colunas.length ∧
        ∀ pc ∈ colunas.zip pr.2,
          pc.2 = match List.lookup pc.1 pr.1 with
            | some v => Cell.val v
            | none =>
              if colunas_fillna.contains pc.1 then Cell.val (Valor.num 0)
              else Cell.null) :=
  ⟨List.cons_ne_nil _ _, gerar_excel_esquema _ (List.cons_ne_nil _ _)⟩
